import Mathlib

/-!
Verification of the Enhanced Data Toolkit (src/main.py) against its
natural-language specification.  The tabular data model (pandas DataFrames)
is shallowly embedded as lists of rows over a scalar cell type; each
operation of the toolkit is translated into an executable Lean function
following the Python source, and the spec's claims are settled as theorems
about those functions.
-/

/-- A scalar cell of a pandas DataFrame: a string, an integer, or null/NaN. -/
inductive Cell where
  | null
  | str (s : String)
  | int (n : Int)
  deriving DecidableEq

/-- Python/pandas string conversion of a cell (`astype(str)`): NaN renders
as the string "nan", integers via decimal notation. -/
def pyStr : Cell → String
  | Cell.null => "nan"
  | Cell.str s => s
  | Cell.int n => toString n

/-- Key normalization used by `perform_merge`:
`astype(str).str.strip()` — convert to string and trim whitespace. -/
def normCell (c : Cell) : Cell := Cell.str (pyStr c).trim

/-- A DataFrame: a list of column names and a list of rows, each row a list
of cells positionally aligned with the columns. -/
structure DataFrame where
  cols : List String
  rows : List (List Cell)
  deriving DecidableEq

/-- Modelled from the spec: the Schema Normalizer of `run_full_process`
(§4.1), whose body is abridged in src/main.py ("[Implementation continues
with all original logic - truncated for brevity]").  For one required
column: if absent, append it with null values for every row. -/
def ensureCol (df : DataFrame) (c : String) : DataFrame :=
  if c ∈ df.cols then df
  else ⟨df.cols ++ [c], df.rows.map (fun r => r ++ [Cell.null])⟩

/-- Modelled from the spec: the Schema Normalizer (§4.1) — for each required
column absent from the table, add it with null values; purely additive. -/
def normalizeSchema (required : List String) (df : DataFrame) : DataFrame :=
  required.foldl ensureCol df

/-- Modelled from the spec: the Ageing Bucketizer thresholds for the
`AGEING` column (§4.5), 7 buckets: ≤1, ≤3, ≤5, ≤15, ≤30, ≤60 and over. -/
def ageingRules7 : List (Int × String) :=
  [(1, "0-1 D"), (3, "2-3 D"), (5, "3-5 D"), (15, "5-15 D"),
   (30, "15-30 D"), (60, "30-60 D")]

/-- Modelled from the spec: the label for day counts above every threshold. -/
def ageingOver : String := "> 60 D"

/-- Modelled from the spec: the coarser 5-bucket thresholds for the
`AGEING (2)` column (§4.5): ≤5, ≤15, ≤30, ≤60 and over. -/
def ageingRules5 : List (Int × String) :=
  [(5, "0-5 D"), (15, "5-15 D"), (30, "15-30 D"), (60, "30-60 D")]

/-- Modelled from the spec: first-match-wins evaluation of an ordered list
of (threshold, label) pairs (§4.5, §9): the first rule whose threshold is
not exceeded assigns the label; past every threshold, the over-label. -/
def bucketOf : List (Int × String) → String → Int → String
  | [], over, _ => over
  | (t, lbl) :: rest, over, j => if j ≤ t then lbl else bucketOf rest over j

/-- The index of the rule that fires in a first-match-wins threshold
cascade (number of thresholds strictly exceeded). -/
def bucketIdx : List (Int × String) → Int → Nat
  | [], _ => 0
  | (t, _) :: rest, j => if j ≤ t then 0 else 1 + bucketIdx rest j

/-- The ordered list of bucket labels of a cascade, in threshold order. -/
def bucketLabels (rules : List (Int × String)) (over : String) : List String :=
  rules.map Prod.snd ++ [over]

/-- Modelled from the spec: the `AGEING` column value for a non-null
day-count (§4.5). -/
def ageing (j : Int) : String := bucketOf ageingRules7 ageingOver j

/-- Modelled from the spec: the `AGEING (2)` column value for a non-null
day-count (§4.5). -/
def ageing2 (j : Int) : String := bucketOf ageingRules5 ageingOver j

/-- Pandas right-column renaming in a merge with `suffixes=("", "_src")`:
a right column whose name collides with a left column name receives the
`_src` suffix, while the left column keeps its name. -/
def renameRight (leftCols : List String) (c : String) : String :=
  if c ∈ leftCols then c ++ "_src" else c

/-- Column selection `df[cs]` by name; each requested name is resolved to
its first position in the frame (names are unique after load cleaning). -/
def DataFrame.select (df : DataFrame) (cs : List String) : DataFrame :=
  ⟨cs, df.rows.map (fun r => cs.map (fun c => r.getD (df.cols.indexOf c) Cell.null))⟩

/-- Column assignment `df[c] = df[c].map f`, applied at the first position
labeled `c` (labels are unique after load cleaning). -/
def DataFrame.mapCol (df : DataFrame) (c : String) (f : Cell → Cell) : DataFrame :=
  ⟨df.cols, df.rows.map (fun r =>
    r.set (df.cols.indexOf c) (f (r.getD (df.cols.indexOf c) Cell.null)))⟩

/-- The `cols_to_pull` construction of `merge_worker`
(src/main.py lines 1074-1076): `[c for c in ([key2] + pull_cols) if c in
df2.columns]`, with `key2` inserted at the front if it is not present. -/
def colsToPull (d2cols : List String) (key2 : String) (pull : List String) : List String :=
  let base := (key2 :: pull).filter (fun c => decide (c ∈ d2cols))
  if key2 ∈ base then base else key2 :: base

/-- The right-table positions contributing to the merged frame: all of them
when the key names differ (pandas keeps the right key column), all but the
right key position when the names coincide (pandas coalesces the keys). -/
def rightIdxsOf (d2cols : List String) (key1 key2 : String) : List Nat :=
  if key1 = key2 then
    (List.range d2cols.length).filter (fun m => decide (¬ m = d2cols.indexOf key2))
  else List.range d2cols.length

/-- The right-table rows whose key cell equals `k`. -/
def matchRows (d2 : DataFrame) (key2 : String) (k : Cell) : List (List Cell) :=
  d2.rows.filter (fun r2 => decide (r2.getD (d2.cols.indexOf key2) Cell.null = k))

/-- The merged rows generated from one left row: one per matching right row,
or a single null-extended row when there is no match. -/
def rowsFor (d1 d2 : DataFrame) (key1 key2 : String) (r : List Cell) : List (List Cell) :=
  let ms := matchRows d2 key2 (r.getD (d1.cols.indexOf key1) Cell.null)
  if ms.isEmpty then
    [r ++ (rightIdxsOf d2.cols key1 key2).map (fun _ => Cell.null)]
  else
    ms.map (fun m => r ++ (rightIdxsOf d2.cols key1 key2).map
      (fun q => m.getD q Cell.null))

/-- Pandas `d1.merge(d2, left_on=key1, right_on=key2, how="left",
suffixes=("", "_src"))`: each left row is repeated once per matching right
row (matched on cell equality of the two key columns), or once with null
right cells when unmatched.  When the two key names are equal pandas emits
a single coalesced key column carrying the left values; when they differ,
the right key column is kept as an ordinary (suffix-renamed) column. -/
def mergeLeft (d1 : DataFrame) (key1 : String) (d2 : DataFrame) (key2 : String) : DataFrame :=
  ⟨d1.cols ++ (rightIdxsOf d2.cols key1 key2).map
      (fun m => renameRight d1.cols (d2.cols.getD m "")),
   d1.rows.flatMap (rowsFor d1 d2 key1 key2)⟩

/-- Pandas `df.drop(columns=[c])`: removes every column labeled `c`. -/
def dropCol (df : DataFrame) (c : String) : DataFrame :=
  ⟨df.cols.filter (fun x => decide (¬ x = c)),
   df.rows.map (fun r => ((df.cols.zip r).filter (fun p => decide (¬ p.1 = c))).map Prod.snd)⟩

/-- The merge operation of the CSV merger (`EnhancedCSVMerger.perform_merge`,
src/main.py lines 1031-1126): validate keys and pull selection, select
`cols_to_pull` from the source, normalize both key columns to
whitespace-stripped strings, left-merge, then drop the source key column
when its name differs from the primary key's and still occurs in the
result.  Returns `none` when a validation step shows a warning, and also
when the pull selection already contains the source key: `cols_to_pull`
then lists `key2` twice, `df2[cols_to_pull]` duplicates that column, and
the key-normalization line `d2[key2].astype(str).str.strip()` raises
(selecting a duplicated label yields a DataFrame, which has no `.str`);
`merge_worker` catches the exception and `perform_merge` surfaces a merge
error, returning None. -/
def perform_merge (d1 d2 : DataFrame) (key1 key2 : String) (pull : List String) :
    Option DataFrame :=
  if key1 = "" ∨ key2 = "" then none
  else if pull = [] then none
  else if ¬ key1 ∈ d1.cols then none
  else if ¬ key2 ∈ d2.cols then none
  else if 2 ≤ (colsToPull d2.cols key2 pull).count key2 then none
  else
    let ctp := colsToPull d2.cols key2 pull
    let d2s := (d2.select ctp).mapCol key2 normCell
    let d1n := d1.mapCol key1 normCell
    let res := mergeLeft d1n key1 d2s key2
    some (if ¬ key1 = key2 ∧ key2 ∈ res.cols then dropCol res key2 else res)

/-- The normalized join key of a row, as `perform_merge` computes it:
the cell in the key column, string-converted and whitespace-stripped. -/
def normKey (df : DataFrame) (key : String) (r : List Cell) : Cell :=
  normCell (r.getD (df.cols.indexOf key) Cell.null)

/-- The number of source-table rows whose normalized key equals `k`. -/
def srcMatches (d2 : DataFrame) (key2 : String) (k : Cell) : Nat :=
  d2.rows.countP (fun r2 => decide (normKey d2 key2 r2 = k))

/-- A primary-table row after `perform_merge`'s key normalization
(`d1[key1] = d1[key1].astype(str).str.strip()`). -/
def normRow (df : DataFrame) (key : String) (r : List Cell) : List Cell :=
  r.set (df.cols.indexOf key) (normCell (r.getD (df.cols.indexOf key) Cell.null))

/-- The cells of a primary-table row that survive `perform_merge`'s
source-key drop step: all of them when the two key names are equal (no
drop), otherwise the cells of the primary columns not labeled `key2`. -/
def survLeft (d1 : DataFrame) (key1 key2 : String) (r : List Cell) : List Cell :=
  if key1 = key2 then r
  else ((d1.cols.zip r).filter (fun p => decide (¬ p.1 = key2))).map Prod.snd

/-- The persistent state of the data processor that load/save/filter
operations read and mutate: the loaded table and its source path. -/
structure ProcState where
  df : Option DataFrame
  filePath : Option String
  deriving DecidableEq

/-- The file-system condition of the reference table at load time: absent,
present but unreadable (read_csv raises), or readable with some content. -/
inductive FileSys where
  | missing
  | unreadable
  | readable (df : DataFrame)
  deriving DecidableEq

/-- The reference-map state of the data processor: the full MAP frame, the
2-column region map, and the message logged by the last load. -/
structure MapState where
  mapFullDf : Option DataFrame
  mapDf : Option DataFrame
  logMsg : String
  deriving DecidableEq

/-- The processor state at startup (`__init__`): no map loaded, region map
unset. -/
def initMapState : MapState := ⟨none, none, ""⟩

/-- Pandas `drop_duplicates(subset=[first column])` with the default
keep="first": keep the first row for each distinct first-column value. -/
def dedupByFst (rws : List (List Cell)) : List (List Cell) :=
  (rws.foldl (fun (acc : List (List Cell) × List Cell) r =>
    if r.getD 0 Cell.null ∈ acc.2 then acc
    else (acc.1 ++ [r], r.getD 0 Cell.null :: acc.2)) ([], [])).1

/-- Region-map construction of `load_map_silent` (src/main.py 1383-1386):
`iloc[:, [0, 2]]`, renamed to PROVINCENAME/REGION, first-kept dedup on the
province column. -/
def buildRegionMap (df : DataFrame) : DataFrame :=
  ⟨["PROVINCENAME", "REGION"],
   dedupByFst (df.rows.map (fun r => [r.getD 0 Cell.null, r.getD 2 Cell.null]))⟩

/-- `EnhancedDataProcessor.load_map_silent` (src/main.py 1377-1393): if the
map file exists and reads, store the full frame; when it has at least 3
columns also build the region map; otherwise (absent, unreadable, or too
narrow) only log.  Every branch logs a message and none raises — the
function is total. -/
def load_map_silent (fs : FileSys) (st : MapState) : MapState :=
  match fs with
  | FileSys.missing =>
    { st with logMsg := "map file not found - region mapping disabled" }
  | FileSys.unreadable =>
    { st with logMsg := "error loading map file" }
  | FileSys.readable df =>
    if 3 ≤ df.cols.length then
      { mapFullDf := some df, mapDf := some (buildRegionMap df),
        logMsg := "map file loaded successfully" }
    else
      { st with
        mapFullDf := some df
        logMsg := "map file has unexpected structure" }

/-- The basename of a POSIX-style path: the part after the last slash. -/
def baseNameChars (l : List Char) : List Char :=
  (l.reverse.takeWhile (fun ch => ¬ ch = '/')).reverse

/-- Python `os.path.splitext` on a basename: split at the last dot,
provided a non-dot character precedes it inside the basename (so leading
dots never start an extension). -/
def splitExtOfBase (b : List Char) : List Char × List Char :=
  let revAfter := b.reverse.takeWhile (fun ch => ¬ ch = '.')
  let stem := (b.reverse.drop (revAfter.length + 1)).reverse
  if b.contains '.' ∧ stem.any (fun ch => ¬ ch = '.') then
    (stem, '.' :: revAfter.reverse)
  else (b, [])

/-- `os.path.splitext(os.path.basename(p))[0]`. -/
def pathBase (p : String) : String :=
  (splitExtOfBase (baseNameChars p.toList)).1.asString

/-- `os.path.splitext(p)[1]` (the extension lives in the basename part). -/
def pathExt (p : String) : String :=
  (splitExtOfBase (baseNameChars p.toList)).2.asString

/-- Python `str.lower()` restricted to its ASCII action, character by
character. -/
def pyLower (s : String) : String := (s.toList.map Char.toLower).asString

/-- Serialization format family selected by `save_df`. -/
inductive SaveFormat where
  | csv
  | xlsx
  | json
  deriving DecidableEq

/-- The effect of one save: the directory ensured via makedirs, the output
path, the serialization format chosen from the (lowercased) original
extension, and the table handed to the serializer — the external
persistence sink of spec section 4.7, which receives every in-memory
column. -/
structure SaveAction where
  dirMade : String
  path : String
  format : SaveFormat
  content : DataFrame
  deriving DecidableEq

/-- `EnhancedDataProcessor.save_df` (src/main.py 1428-1454): refuse when no
file/table is loaded; otherwise ensure the output folder exists and write
`<output_folder>/<base>_<suffix><ext>` where `ext` is the lowercased
original extension, in the format that extension selects. -/
def save_df (st : ProcState) (outputFolder sfx : String) : Option SaveAction :=
  match st.filePath, st.df with
  | some fp, some df =>
    if fp = "" then none
    else
      let base := pathBase fp
      let ext := pyLower (pathExt fp)
      some ⟨outputFolder, outputFolder ++ "/" ++ base ++ "_" ++ sfx ++ ext,
        if ext = ".csv" then SaveFormat.csv
        else if ext = ".xlsx" then SaveFormat.xlsx
        else SaveFormat.json, df⟩
  | _, _ => none

/-- The output path exactly as claim C4 words it: the output folder joined
with the original base name, an underscore, the suffix token, and the
original file's extension taken as-is (not lowercased). -/
def specSavePath (fp outputFolder sfx : String) : String :=
  outputFolder ++ "/" ++ pathBase fp ++ "_" ++ sfx ++ pathExt fp

/-- Outcome of one `pd.read_csv` attempt with a given encoding. -/
inductive ReadOutcome where
  | ok (df : DataFrame)
  | err
  deriving DecidableEq

def ReadOutcome.isOk : ReadOutcome → Bool
  | ReadOutcome.ok _ => true
  | ReadOutcome.err => false

/-- `EnhancedCSVMerger.detect_encoding` (src/main.py 868-876): the chardet
result when it yields an encoding, and the hardcoded "utf-8" when chardet
fails or detects nothing. -/
def detect_encoding (chardetResult : Option String) : String :=
  match chardetResult with
  | some e => e
  | none => "utf-8"

/-- Column cleaning after a merger load (src/main.py 934-936): strip the
column names and drop later duplicate-named columns. -/
def cleanCols (df : DataFrame) : DataFrame :=
  let stripped := df.cols.map (fun c => c.trim)
  let keep := (List.range stripped.length).filter
    (fun i => decide (¬ (stripped.getD i "") ∈ stripped.take i))
  ⟨keep.map (fun i => stripped.getD i ""),
   df.rows.map (fun r => keep.map (fun i => r.getD i Cell.null))⟩

/-- The CSV branch of `EnhancedDataProcessor.load_file` (src/main.py
1407-1413) as a function of a read oracle: try the configured encoding,
fall back to the fixed encoding latin1 if that raises; on double failure
surface an error and leave the state unchanged.  Returns the new state,
the list of attempted encodings, and whether a load error was surfaced. -/
def processorLoadCsv (rd : String → ReadOutcome) (cfgEnc : String)
    (st : ProcState) (path : String) : ProcState × List String × Bool :=
  match rd cfgEnc with
  | ReadOutcome.ok df => (⟨some df, some path⟩, [cfgEnc], false)
  | ReadOutcome.err =>
    match rd "latin1" with
    | ReadOutcome.ok df => (⟨some df, some path⟩, [cfgEnc, "latin1"], false)
    | ReadOutcome.err => (st, [cfgEnc, "latin1"], true)

/-- The load worker of `EnhancedCSVMerger.load_data` (src/main.py 919-951)
as a function of a read oracle and the chardet result: try the configured
encoding, fall back to the chardet-detected encoding if that raises; on
double failure surface an error and deliver no table.  Returns the
attempted encodings, the loaded (column-cleaned) table if any, and whether
an error was surfaced. -/
def mergerLoadCsv (rd : String → ReadOutcome) (cfgEnc : String)
    (chardetResult : Option String) : List String × Option DataFrame × Bool :=
  match rd cfgEnc with
  | ReadOutcome.ok df => ([cfgEnc], some (cleanCols df), false)
  | ReadOutcome.err =>
    match rd (detect_encoding chardetResult) with
    | ReadOutcome.ok df =>
      ([cfgEnc, detect_encoding chardetResult], some (cleanCols df), false)
    | ReadOutcome.err =>
      ([cfgEnc, detect_encoding chardetResult], none, true)

/-- The 8-bit legacy codecs the spec's words could denote ("fallback to an
8-bit legacy encoding"): single-byte legacy code pages. -/
def legacy8bitEncodings : List String :=
  ["latin1", "latin-1", "latin_1", "iso-8859-1", "iso8859-1", "cp1252",
   "windows-1252", "cp850", "cp437", "mac_roman", "koi8-r", "cp1251"]

/-- Cell equality against a Python string constant, as pandas `==`/`!=`
compares cells with a string: only a string cell can be equal. -/
def cellEqStr (c : Cell) (s : String) : Bool :=
  match c with
  | Cell.str t => decide (t = s)
  | _ => false

/-- `EnhancedDataProcessor.remove_bsg` (src/main.py 1456-1469): drop rows
whose DIVISIONCODE equals the configured BSG code; when the table or the
column is absent, warn and change nothing.  Returns the new state, the
warning if any, and the auto-save action if one ran. -/
def remove_bsg (st : ProcState) (bsgCode : String) (autoSave : Bool)
    (outputFolder : String) : ProcState × Option String × Option SaveAction :=
  match st.df with
  | some df =>
    if "DIVISIONCODE" ∈ df.cols then
      let i := df.cols.indexOf "DIVISIONCODE"
      let st2 : ProcState := ⟨some ⟨df.cols,
        df.rows.filter (fun r => !(cellEqStr (r.getD i Cell.null) bsgCode))⟩,
        st.filePath⟩
      (st2, none, if autoSave then save_df st2 outputFolder "removedbsg" else none)
    else (st, some "Data or DIVISIONCODE column not found.", none)
  | none => (st, some "Data or DIVISIONCODE column not found.", none)

/-- Substring containment (Python `in`).  It is the behaviour of the
regex search of pandas `str.contains` exactly when the pattern is a
regex-literal string, i.e. free of regex metacharacters — the configured
default code "ACT" is such a pattern. -/
def strContainsSub (hay needle : String) : Bool :=
  decide (needle.toList <:+: hay.toList)

/-- `EnhancedDataProcessor.filter_act` (src/main.py 1471-1483): keep rows
whose SUBSCRIBERSTATUSCODE, string-converted (`astype(str)` renders NaN as
"nan"), is matched by `str.contains(act_code)`; when the table or the
column is absent, warn and change nothing.  `str.contains` performs a
regex search through the external `re` engine, abstracted here as the
oracle `rmatch pat hay` (for an invalid pattern the engine raises; a raise
is outside this oracle and outside the claims, which concern the
configured code).  For a regex-literal pattern — such as the configured
default "ACT" — the search is substring containment. -/
def filter_act (rmatch : String → String → Bool) (st : ProcState)
    (actCode : String) (autoSave : Bool)
    (outputFolder : String) : ProcState × Option String × Option SaveAction :=
  match st.df with
  | some df =>
    if "SUBSCRIBERSTATUSCODE" ∈ df.cols then
      let i := df.cols.indexOf "SUBSCRIBERSTATUSCODE"
      let st2 : ProcState := ⟨some ⟨df.cols,
        df.rows.filter (fun r =>
          rmatch actCode (pyStr (r.getD i Cell.null)))⟩,
        st.filePath⟩
      (st2, none,
        if autoSave then save_df st2 outputFolder "actfiltered" else none)
    else (st, some "Data or SUBSCRIBERSTATUSCODE column not found.", none)
  | none => (st, some "Data or SUBSCRIBERSTATUSCODE column not found.", none)

/-- One output CSV of the Excel converter. -/
structure CsvOut where
  path : String
  table : DataFrame
  deriving DecidableEq

/-- The directory part of a POSIX-style path (`os.path.dirname`). -/
def dirName (p : String) : String :=
  ((p.toList.reverse.dropWhile (fun ch => ¬ ch = '/')).drop 1).reverse.asString

/-- Header conversion for a sheet's first row (src/main.py 1619):
`str(c) if c is not None else ""`. -/
def headerStr : Cell → String
  | Cell.null => ""
  | Cell.str s => s
  | Cell.int n => toString n

/-- The CSV exported for one non-empty sheet (src/main.py 1618-1626):
headers from the first row, data from the remaining rows, written to
`<folder>/<workbook base>_<sheet>.csv`. -/
def sheetOut (outFolder filePath sheetName : String)
    (rws : List (List Cell)) : CsvOut :=
  ⟨outFolder ++ "/" ++ pathBase filePath ++ "_" ++ sheetName ++ ".csv",
   ⟨(rws.headD []).map headerStr, rws.drop 1⟩⟩

/-- The output folder used by the converter (src/main.py 1595-1596): the
chosen folder, or a `converted_csvs` directory beside the workbook. -/
def resolveOutFolder (filePath : String) (outFolder : Option String) : String :=
  match outFolder with
  | some f => f
  | none => dirName filePath ++ "/converted_csvs"

/-- `EnhancedExcelConverter.convert` (src/main.py 1589-1654): with split
disabled nothing is exported (there is no combined-export branch); with
split enabled, each sheet is skipped when empty (the skip-empty option
short-circuits, but the rows guard skips empty sheets regardless) and
exported otherwise.  Returns the exported files and the reported count. -/
def convert (filePath : String) (outFolder : Option String)
    (sheets : List (String × List (List Cell)))
    (splitSheets skipEmpty : Bool) : List CsvOut × Nat :=
  let folder := resolveOutFolder filePath outFolder
  let exported :=
    if splitSheets then
      sheets.foldl (fun acc sh =>
        if sh.2.isEmpty ∧ skipEmpty then acc
        else if ¬ sh.2.isEmpty = true then
          acc ++ [sheetOut folder filePath sh.1 sh.2]
        else acc) []
    else []
  (exported, exported.length)

theorem ensureCol_mem (df : DataFrame) (c x : String) (h : x ∈ df.cols) :
    x ∈ (ensureCol df c).cols := by
  unfold ensureCol
  split
  · exact h
  · exact List.mem_append_left _ h

theorem ensureCol_self_mem (df : DataFrame) (c : String) :
    c ∈ (ensureCol df c).cols := by
  unfold ensureCol
  split
  · next h => exact h
  · exact List.mem_append_right _ (List.mem_singleton.mpr rfl)

theorem normalizeSchema_mem_of_mem (required : List String) (df : DataFrame)
    (c : String) (h : c ∈ df.cols) : c ∈ (normalizeSchema required df).cols := by
  induction required generalizing df with
  | nil => exact h
  | cons b rs ih => exact ih _ (ensureCol_mem _ _ _ h)

theorem normalizeSchema_mem (required : List String) (df : DataFrame)
    (c : String) (h : c ∈ required) : c ∈ (normalizeSchema required df).cols := by
  induction required generalizing df with
  | nil => cases h
  | cons a rest ih =>
    rcases List.mem_cons.mp h with rfl | h2
    · exact normalizeSchema_mem_of_mem rest _ c (ensureCol_self_mem df c)
    · exact ih _ h2

theorem ensureCol_of_mem (df : DataFrame) (c : String) (h : c ∈ df.cols) :
    ensureCol df c = df := by
  unfold ensureCol
  rw [if_pos h]

/-- Claim C7: the Schema Normalizer is idempotent — running the
normalization step twice produces the same column set and the same values
(indeed the same table) as running it once. -/
theorem schema_normalizer_idempotent (required : List String) (df : DataFrame) :
    normalizeSchema required (normalizeSchema required df)
      = normalizeSchema required df := by
  have key : ∀ (req : List String) (d : DataFrame),
      (∀ c ∈ req, c ∈ d.cols) → normalizeSchema req d = d := by
    intro req
    induction req with
    | nil => intro d _; rfl
    | cons a rest ih =>
      intro d hall
      have ha : a ∈ d.cols := hall a (List.mem_cons_self a rest)
      show normalizeSchema rest (ensureCol d a) = d
      rw [ensureCol_of_mem d a ha]
      exact ih d (fun c hc => hall c (List.mem_cons_of_mem a hc))
  exact key required _ (fun c hc => normalizeSchema_mem required df c hc)

/-- Claim C2: for every non-null integer day-count in `JOTODAY` that is at
least 0, the ageing bucketizer assigns a label corresponding to exactly one
of the 7 `AGEING` buckets and exactly one of the 5 `AGEING (2)` buckets,
and the assignment is monotonic in threshold order: a larger day-count is
never assigned a bucket earlier in the ordered label list. -/
theorem ageing_bucket_total_monotone (j j' : Int) (h0 : 0 ≤ j) (hle : j ≤ j') :
    (bucketLabels ageingRules7 ageingOver).count (ageing j) = 1 ∧
    (bucketLabels ageingRules5 ageingOver).count (ageing2 j) = 1 ∧
    (bucketLabels ageingRules7 ageingOver).indexOf (ageing j)
      ≤ (bucketLabels ageingRules7 ageingOver).indexOf (ageing j') ∧
    (bucketLabels ageingRules5 ageingOver).indexOf (ageing2 j)
      ≤ (bucketLabels ageingRules5 ageingOver).indexOf (ageing2 j') := by
  simp only [ageing, ageing2, ageingRules7, ageingRules5, ageingOver,
    bucketOf, bucketLabels]
  refine ⟨?_, ?_, ?_, ?_⟩ <;> split_ifs <;> first | decide | (exfalso; omega)

/-- Witness for C2 at the concrete day-counts 2 and 40. -/
theorem ageing_bucket_total_monotone_witness :
    (0 : Int) ≤ 2 ∧ (2 : Int) ≤ 40 ∧
    ((bucketLabels ageingRules7 ageingOver).count (ageing 2) = 1 ∧
     (bucketLabels ageingRules5 ageingOver).count (ageing2 2) = 1 ∧
     (bucketLabels ageingRules7 ageingOver).indexOf (ageing 2)
       ≤ (bucketLabels ageingRules7 ageingOver).indexOf (ageing 40) ∧
     (bucketLabels ageingRules5 ageingOver).indexOf (ageing2 2)
       ≤ (bucketLabels ageingRules5 ageingOver).indexOf (ageing2 40)) :=
  ⟨by decide, by decide, ageing_bucket_total_monotone 2 40 (by decide) (by decide)⟩

theorem getD_set_self_cell (l : List Cell) (i : Nat) (v d : Cell) (h : i < l.length) :
    (l.set i v).getD i d = v := by
  induction l generalizing i with
  | nil => simp at h
  | cons a t ih =>
    cases i with
    | zero => rfl
    | succ n => exact ih n (Nat.lt_of_succ_lt_succ h)

theorem dropCol_rows_length (df : DataFrame) (c : String) :
    (dropCol df c).rows.length = df.rows.length := by
  simp [dropCol]

theorem matchRows_length_eq_countP (b : DataFrame) (key2 : String) (k : Cell) :
    (matchRows b key2 k).length
      = b.rows.countP (fun r2 =>
          decide (r2.getD (b.cols.indexOf key2) Cell.null = k)) :=
  (List.countP_eq_length_filter _ _).symm

theorem rowsFor_length (a b : DataFrame) (key1 key2 : String) (r : List Cell) :
    (rowsFor a b key1 key2 r).length
      = max 1 (matchRows b key2 (r.getD (a.cols.indexOf key1) Cell.null)).length := by
  unfold rowsFor
  by_cases he : (matchRows b key2 (r.getD (a.cols.indexOf key1) Cell.null)).isEmpty
  · rw [if_pos he]
    rw [List.isEmpty_iff] at he
    rw [he]
    rfl
  · rw [if_neg he, List.length_map]
    have hpos : 0 < (matchRows b key2 (r.getD (a.cols.indexOf key1) Cell.null)).length := by
      rcases Nat.eq_zero_or_pos (List.length _) with hz | hp
      · exact absurd (List.isEmpty_iff_length_eq_zero.mpr hz) he
      · exact hp
    omega

theorem mergeLeft_rows_length (a b : DataFrame) (key1 key2 : String) :
    (mergeLeft a key1 b key2).rows.length
      = (a.rows.map (fun r => max 1 (matchRows b key2
          (r.getD (a.cols.indexOf key1) Cell.null)).length)).sum := by
  show (a.rows.flatMap (rowsFor a b key1 key2)).length = _
  rw [List.flatMap, List.length_flatten, List.map_map]
  congr 1
  apply List.map_congr_left
  intro r _
  exact rowsFor_length a b key1 key2 r

theorem colsToPull_eq (d2cols : List String) (key2 : String) (pull : List String)
    (h2 : key2 ∈ d2cols) :
    colsToPull d2cols key2 pull
      = key2 :: pull.filter (fun c => decide (c ∈ d2cols)) := by
  have hf : (key2 :: pull).filter (fun c => decide (c ∈ d2cols))
      = key2 :: pull.filter (fun c => decide (c ∈ d2cols)) := by
    simp [List.filter_cons, h2]
  simp only [colsToPull, hf]
  rw [if_pos (List.mem_cons_self _ _)]

theorem colsToPull_count_key2 (d2cols : List String) (key2 : String)
    (pull : List String) (h2 : key2 ∈ d2cols) (hkp : ¬ key2 ∈ pull) :
    (colsToPull d2cols key2 pull).count key2 = 1 := by
  rw [colsToPull_eq d2cols key2 pull h2, List.count_cons_self]
  have hnm : ¬ key2 ∈ pull.filter (fun c => decide (c ∈ d2cols)) :=
    fun hm => hkp (List.mem_of_mem_filter hm)
  rw [List.count_eq_zero.mpr hnm]

theorem select_mapCol_rows (d2 : DataFrame) (key2 : String) (pull : List String)
    (h2 : key2 ∈ d2.cols) :
    ((d2.select (colsToPull d2.cols key2 pull)).mapCol key2 normCell).rows
      = d2.rows.map (fun r2 =>
          normKey d2 key2 r2
            :: (pull.filter (fun c => decide (c ∈ d2.cols))).map
                 (fun c => r2.getD (d2.cols.indexOf c) Cell.null)) := by
  simp only [DataFrame.mapCol, DataFrame.select, colsToPull_eq d2.cols key2 pull h2,
    List.map_map, List.indexOf_cons_self, List.map_cons]
  apply List.map_congr_left
  intro r2 _
  rfl

theorem select_mapCol_cols (d2 : DataFrame) (key2 : String) (pull : List String)
    (h2 : key2 ∈ d2.cols) :
    ((d2.select (colsToPull d2.cols key2 pull)).mapCol key2 normCell).cols
      = key2 :: pull.filter (fun c => decide (c ∈ d2.cols)) := by
  simp only [DataFrame.mapCol, DataFrame.select, colsToPull_eq d2.cols key2 pull h2]

theorem d2s_matchRows_length (d2 : DataFrame) (key2 : String) (pull : List String)
    (h2 : key2 ∈ d2.cols) (k : Cell) :
    (matchRows ((d2.select (colsToPull d2.cols key2 pull)).mapCol key2 normCell)
        key2 k).length
      = srcMatches d2 key2 k := by
  unfold matchRows
  rw [select_mapCol_cols d2 key2 pull h2, List.indexOf_cons_self,
    select_mapCol_rows d2 key2 pull h2, ← List.countP_eq_length_filter,
    List.countP_map]
  rfl

theorem rowsFor_exists (a b : DataFrame) (key1 key2 : String) (r : List Cell) :
    ∃ t : List Cell, (r ++ t) ∈ rowsFor a b key1 key2 r := by
  unfold rowsFor
  by_cases he : (matchRows b key2 (r.getD (a.cols.indexOf key1) Cell.null)).isEmpty
  · rw [if_pos he]
    exact ⟨_, List.mem_singleton.mpr rfl⟩
  · rw [if_neg he]
    cases hms : matchRows b key2 (r.getD (a.cols.indexOf key1) Cell.null) with
    | nil => exact absurd (List.isEmpty_iff.mpr hms) he
    | cons m tl =>
      exact ⟨_, List.mem_map_of_mem _ (List.mem_cons_self m tl)⟩

theorem mergeLeft_row_exists (a b : DataFrame) (key1 key2 : String) (r : List Cell)
    (hr : r ∈ a.rows) :
    ∃ t : List Cell, (r ++ t) ∈ (mergeLeft a key1 b key2).rows := by
  obtain ⟨t, ht⟩ := rowsFor_exists a b key1 key2 r
  exact ⟨t, List.mem_flatMap.mpr ⟨r, hr, ht⟩⟩

theorem key2_mem_mergeLeft_cols (a b : DataFrame) (key1 key2 : String)
    (hk : ¬ key1 = key2) (cs : List String) (hb : b.cols = key2 :: cs) :
    key2 ∈ (mergeLeft a key1 b key2).cols := by
  show key2 ∈ a.cols ++ _
  by_cases hmem : key2 ∈ a.cols
  · exact List.mem_append_left _ hmem
  · apply List.mem_append_right
    have h0 : (0 : Nat) ∈ rightIdxsOf b.cols key1 key2 := by
      unfold rightIdxsOf
      rw [if_neg hk, List.mem_range, hb]
      exact Nat.succ_pos _
    have hval : renameRight a.cols (b.cols.getD 0 "") = key2 := by
      rw [hb]
      show renameRight a.cols key2 = key2
      unfold renameRight
      rw [if_neg hmem]
    exact List.mem_map.mpr ⟨0, h0, hval⟩

theorem dropRow_append (cols1 cols2 : List String) (r1 r2 : List Cell) (c : String)
    (h : cols1.length = r1.length) :
    (((cols1 ++ cols2).zip (r1 ++ r2)).filter
        (fun p => decide (¬ p.1 = c))).map Prod.snd
      = ((cols1.zip r1).filter (fun p => decide (¬ p.1 = c))).map Prod.snd
        ++ ((cols2.zip r2).filter (fun p => decide (¬ p.1 = c))).map Prod.snd := by
  rw [List.zip_append h, List.filter_append, List.map_append]

theorem res_rows_length (a b : DataFrame) (key1 key2 : String) :
    (if ¬ key1 = key2 ∧ key2 ∈ (mergeLeft a key1 b key2).cols
        then dropCol (mergeLeft a key1 b key2) key2
        else mergeLeft a key1 b key2).rows.length
      = (a.rows.map (fun r => max 1 (matchRows b key2
          (r.getD (a.cols.indexOf key1) Cell.null)).length)).sum := by
  by_cases hcond : ¬ key1 = key2 ∧ key2 ∈ (mergeLeft a key1 b key2).cols
  · rw [if_pos hcond, dropCol_rows_length, mergeLeft_rows_length]
  · rw [if_neg hcond, mergeLeft_rows_length]

theorem res_rows_prefix (a b : DataFrame) (key1 key2 : String) (r : List Cell)
    (hr : r ∈ a.rows) (hlen : r.length = a.cols.length) :
    ∃ rr ∈ (if ¬ key1 = key2 ∧ key2 ∈ (mergeLeft a key1 b key2).cols
        then dropCol (mergeLeft a key1 b key2) key2
        else mergeLeft a key1 b key2).rows,
      (if key1 = key2 then r
       else ((a.cols.zip r).filter (fun p => decide (¬ p.1 = key2))).map Prod.snd)
        <+: rr := by
  obtain ⟨t, ht⟩ := mergeLeft_row_exists a b key1 key2 r hr
  by_cases hk : key1 = key2
  · rw [if_neg (fun hc => hc.1 hk)]
    refine ⟨r ++ t, ht, ?_⟩
    rw [if_pos hk]
    exact List.prefix_append r t
  · by_cases hcm : key2 ∈ (mergeLeft a key1 b key2).cols
    · rw [if_pos ⟨hk, hcm⟩]
      refine ⟨_, List.mem_map_of_mem _ ht, ?_⟩
      rw [if_neg hk]
      show _ <+: (((a.cols ++ _).zip (r ++ t)).filter
        (fun p => decide (¬ p.1 = key2))).map Prod.snd
      rw [dropRow_append _ _ _ _ _ hlen.symm]
      exact List.prefix_append _ _
    · rw [if_neg (fun hc => hcm hc.2)]
      have hmem : ¬ key2 ∈ a.cols := fun hm =>
        hcm (List.mem_append_left _ hm)
      have hfin : ((a.cols.zip r).filter
          (fun p => decide (¬ p.1 = key2))).map Prod.snd = r := by
        have hfilter : (a.cols.zip r).filter (fun p => decide (¬ p.1 = key2))
            = a.cols.zip r := by
          apply List.filter_eq_self.mpr
          intro p hp
          rcases p with ⟨x, y⟩
          have hx : x ∈ a.cols := (List.of_mem_zip hp).1
          simp only [decide_eq_true_eq]
          intro heq
          exact hmem (heq ▸ hx)
        rw [hfilter]
        exact List.map_snd_zip a.cols r (le_of_eq hlen)
      rw [if_neg hk, hfin]
      exact ⟨r ++ t, ht, List.prefix_append r t⟩

/-- Claim C1 (amended): for every pair of loaded tables with a chosen
primary key column and source key column (each present in its table) and a
non-empty pull selection that does not contain the source key — with the
key in the selection the program raises on the duplicated key column and
produces no result, see the counterexample — `perform_merge` performs a
left join of the primary table against the source on the
whitespace-stripped string forms of the keys: the result has one row per
primary row and matching source row — exactly one row for an unmatched
primary row — and every primary row survives into the result (its
surviving cells are a prefix of some result row). -/
theorem merge_left_join_multiplicity
    (d1 d2 : DataFrame) (key1 key2 : String) (pull : List String)
    (h1 : key1 ∈ d1.cols) (h2 : key2 ∈ d2.cols) (h3 : ¬ pull = [])
    (h4 : ¬ key1 = "") (h5 : ¬ key2 = "") (h6 : ¬ key2 ∈ pull)
    (hw : ∀ r ∈ d1.rows, r.length = d1.cols.length) :
    ∃ res, perform_merge d1 d2 key1 key2 pull = some res ∧
      res.rows.length
        = (d1.rows.map (fun r =>
            max 1 (srcMatches d2 key2 (normKey d1 key1 r)))).sum ∧
      ∀ r ∈ d1.rows, ∃ rr ∈ res.rows,
        survLeft d1 key1 key2 (normRow d1 key1 r) <+: rr := by
  have g1 : ¬ (key1 = "" ∨ key2 = "") := by
    intro hg
    rcases hg with hg | hg
    · exact h4 hg
    · exact h5 hg
  have hpm : perform_merge d1 d2 key1 key2 pull
      = some (if ¬ key1 = key2 ∧ key2 ∈ (mergeLeft (d1.mapCol key1 normCell) key1
            ((d2.select (colsToPull d2.cols key2 pull)).mapCol key2 normCell)
            key2).cols
          then dropCol (mergeLeft (d1.mapCol key1 normCell) key1
            ((d2.select (colsToPull d2.cols key2 pull)).mapCol key2 normCell)
            key2) key2
          else mergeLeft (d1.mapCol key1 normCell) key1
            ((d2.select (colsToPull d2.cols key2 pull)).mapCol key2 normCell)
            key2) := by
    have hcnt : ¬ 2 ≤ (colsToPull d2.cols key2 pull).count key2 := by
      rw [colsToPull_count_key2 d2.cols key2 pull h2 h6]
      omega
    unfold perform_merge
    rw [if_neg g1, if_neg h3, if_neg (not_not_intro h1),
      if_neg (not_not_intro h2), if_neg hcnt]
  refine ⟨_, hpm, ?_, ?_⟩
  · rw [res_rows_length]
    have hrows : (d1.mapCol key1 normCell).rows
        = d1.rows.map (fun r => normRow d1 key1 r) := rfl
    rw [hrows, List.map_map]
    congr 1
    apply List.map_congr_left
    intro r hrm
    have hi1 : d1.cols.indexOf key1 < r.length := by
      rw [hw r hrm]
      exact List.indexOf_lt_length.mpr h1
    have hkey : (normRow d1 key1 r).getD (d1.cols.indexOf key1) Cell.null
        = normKey d1 key1 r := getD_set_self_cell r _ _ _ hi1
    show max 1 (matchRows _ key2 ((normRow d1 key1 r).getD
      (d1.cols.indexOf key1) Cell.null)).length = _
    rw [hkey, d2s_matchRows_length d2 key2 pull h2]
  · intro r hrm
    have hrn : normRow d1 key1 r ∈ (d1.mapCol key1 normCell).rows :=
      List.mem_map_of_mem _ hrm
    have hlen : (normRow d1 key1 r).length
        = (d1.mapCol key1 normCell).cols.length := by
      show (r.set _ _).length = d1.cols.length
      rw [List.length_set]
      exact hw r hrm
    exact res_rows_prefix (d1.mapCol key1 normCell)
      ((d2.select (colsToPull d2.cols key2 pull)).mapCol key2 normCell)
      key1 key2 (normRow d1 key1 r) hrn hlen

theorem map_getD_range {α β : Type} (xs : List α) (d : α) (f : α → β) :
    (List.range xs.length).map (fun m => f (xs.getD m d)) = xs.map f := by
  induction xs with
  | nil => rfl
  | cons x rest ih =>
    show (List.range (rest.length + 1)).map _ = _
    rw [List.range_succ_eq_map, List.map_cons, List.map_map]
    exact congrArg (f x :: ·) ih

theorem filter_range_succ_ne_zero (s : Nat) :
    (List.range (s + 1)).filter (fun m => decide (¬ m = 0))
      = (List.range s).map Nat.succ := by
  rw [List.range_succ_eq_map]
  rw [List.filter_cons_of_neg (by decide)]
  apply List.filter_eq_self.mpr
  intro m hm
  obtain ⟨q, _, rfl⟩ := List.mem_map.mp hm
  exact decide_eq_true (Nat.succ_ne_zero q)

theorem pull_filter_eq (d2cols : List String) (pull : List String)
    (hsub : ∀ c ∈ pull, c ∈ d2cols) :
    pull.filter (fun c => decide (c ∈ d2cols)) = pull :=
  List.filter_eq_self.mpr (fun c hc => decide_eq_true (hsub c hc))

theorem mergeLeft_cols_same_key (a b : DataFrame) (k : String) (ps : List String)
    (hb : b.cols = k :: ps) :
    (mergeLeft a k b k).cols = a.cols ++ ps.map (renameRight a.cols) := by
  show a.cols ++ _ = _
  congr 1
  unfold rightIdxsOf
  rw [if_pos rfl, hb, List.indexOf_cons_self]
  show ((List.range (ps.length + 1)).filter (fun m => decide (¬ m = 0))).map _ = _
  rw [filter_range_succ_ne_zero, List.map_map]
  have : ((fun m => renameRight a.cols ((k :: ps).getD m "")) ∘ Nat.succ)
      = fun m => renameRight a.cols (ps.getD m "") := rfl
  rw [this, map_getD_range]

theorem mergeLeft_cols_diff_key (a b : DataFrame) (key1 key2 : String)
    (ps : List String) (hk : ¬ key1 = key2) (hb : b.cols = key2 :: ps) :
    (mergeLeft a key1 b key2).cols
      = a.cols ++ renameRight a.cols key2 :: ps.map (renameRight a.cols) := by
  show a.cols ++ _ = _
  congr 1
  unfold rightIdxsOf
  rw [if_neg hk, hb]
  show (List.range ((key2 :: ps).length)).map
    (fun m => renameRight a.cols ((key2 :: ps).getD m "")) = _
  rw [map_getD_range]
  rfl

/-- Witness for C1 at concrete two-row tables: the primary key cell " 1 "
is stripped to "1" and matches two source rows, the key "2" matches none. -/
theorem merge_left_join_multiplicity_witness :
    "K" ∈ (⟨["K", "A"], [[Cell.str " 1 ", Cell.str "x"],
        [Cell.str "2", Cell.str "y"]]⟩ : DataFrame).cols ∧
    "J" ∈ (⟨["J", "B"], [[Cell.str "1", Cell.str "p"],
        [Cell.str "1", Cell.str "q"]]⟩ : DataFrame).cols ∧
    ¬ "J" ∈ (["B"] : List String) ∧
    (∃ res, perform_merge
        ⟨["K", "A"], [[Cell.str " 1 ", Cell.str "x"], [Cell.str "2", Cell.str "y"]]⟩
        ⟨["J", "B"], [[Cell.str "1", Cell.str "p"], [Cell.str "1", Cell.str "q"]]⟩
        "K" "J" ["B"] = some res ∧
      res.rows.length
        = ((⟨["K", "A"], [[Cell.str " 1 ", Cell.str "x"],
            [Cell.str "2", Cell.str "y"]]⟩ : DataFrame).rows.map (fun r =>
            max 1 (srcMatches
              ⟨["J", "B"], [[Cell.str "1", Cell.str "p"], [Cell.str "1", Cell.str "q"]]⟩
              "J" (normKey
                ⟨["K", "A"], [[Cell.str " 1 ", Cell.str "x"], [Cell.str "2", Cell.str "y"]]⟩
                "K" r)))).sum ∧
      ∀ r ∈ (⟨["K", "A"], [[Cell.str " 1 ", Cell.str "x"],
          [Cell.str "2", Cell.str "y"]]⟩ : DataFrame).rows,
        ∃ rr ∈ res.rows,
          survLeft ⟨["K", "A"], [[Cell.str " 1 ", Cell.str "x"],
              [Cell.str "2", Cell.str "y"]]⟩ "K" "J"
            (normRow ⟨["K", "A"], [[Cell.str " 1 ", Cell.str "x"],
              [Cell.str "2", Cell.str "y"]]⟩ "K" r) <+: rr) :=
  ⟨by decide, by decide, by decide,
    merge_left_join_multiplicity _ _ _ _ _ (by decide) (by decide) (by decide)
      (by decide) (by decide) (by decide) (by decide)⟩

/-- Counterexample for C1: with a pull selection that contains the source
key ("J"), `cols_to_pull` lists the key twice, the selected source frame
has duplicate key columns, and the key-normalization line raises in the
program; `merge_worker` catches the exception and `perform_merge` returns
None — no left join is performed — even though both keys are present in
their tables and the selection is non-empty. -/
theorem merge_pull_key_error_counterexample :
    "K" ∈ (⟨["K", "A"], [[Cell.str "1", Cell.str "x"]]⟩ : DataFrame).cols ∧
    "J" ∈ (⟨["J", "B"], [[Cell.str "1", Cell.str "p"]]⟩ : DataFrame).cols ∧
    ¬ (["J", "B"] = ([] : List String)) ∧
    perform_merge ⟨["K", "A"], [[Cell.str "1", Cell.str "x"]]⟩
      ⟨["J", "B"], [[Cell.str "1", Cell.str "p"]]⟩ "K" "J" ["J", "B"]
      = none := by
  refine ⟨by decide, by decide, by decide, by decide⟩

/-- Counterexample for C8: with primary columns ["A", "B"], source columns
["B", "C"], primary key "A", source key "B" and pull selection ["C"], the
merged result's columns are ["A", "B_src", "C"] — the primary column "B"
was dropped and the source key survived as "B_src" — and not the claimed
primary-columns-plus-renamed-pulls ["A", "B", "C"]. -/
theorem merge_drop_collision_counterexample :
    (perform_merge ⟨["A", "B"], [[Cell.str "1", Cell.str "x"]]⟩
        ⟨["B", "C"], [[Cell.str "1", Cell.str "y"]]⟩ "A" "B" ["C"]).map
        DataFrame.cols
      = some ["A", "B_src", "C"] ∧
    ¬ ((perform_merge ⟨["A", "B"], [[Cell.str "1", Cell.str "x"]]⟩
        ⟨["B", "C"], [[Cell.str "1", Cell.str "y"]]⟩ "A" "B" ["C"]).map
        DataFrame.cols
      = some (["A", "B"] ++ ["C"].map (renameRight ["A", "B"]))) := by
  constructor
  · decide
  · decide

/-- Claim C8 (amended): with a valid pull selection taken from the source
columns and not containing the source key, when the two key names are equal
no column is dropped and the result's columns are exactly the primary
columns followed by the pulled columns (suffix-renamed on collision); when
they differ the same holds provided the source key's name does not occur
among the primary columns (and no pulled column renames onto it) —
otherwise the drop step removes the primary column of that name instead,
as the counterexample shows. -/
theorem merge_result_columns
    (d1 d2 : DataFrame) (key1 key2 : String) (pull : List String)
    (h1 : key1 ∈ d1.cols) (h2 : key2 ∈ d2.cols) (h3 : ¬ pull = [])
    (h4 : ¬ key1 = "") (h5 : ¬ key2 = "")
    (hsub : ∀ c ∈ pull, c ∈ d2.cols) (hkp : ¬ key2 ∈ pull)
    (hcol : key1 = key2 ∨
      (¬ key2 ∈ d1.cols ∧ ∀ c ∈ pull, ¬ c ++ "_src" = key2)) :
    ∃ res, perform_merge d1 d2 key1 key2 pull = some res ∧
      res.cols = d1.cols ++ pull.map (renameRight d1.cols) := by
  have g1 : ¬ (key1 = "" ∨ key2 = "") := by
    intro hg
    rcases hg with hg | hg
    · exact h4 hg
    · exact h5 hg
  have hpm : perform_merge d1 d2 key1 key2 pull
      = some (if ¬ key1 = key2 ∧ key2 ∈ (mergeLeft (d1.mapCol key1 normCell) key1
            ((d2.select (colsToPull d2.cols key2 pull)).mapCol key2 normCell)
            key2).cols
          then dropCol (mergeLeft (d1.mapCol key1 normCell) key1
            ((d2.select (colsToPull d2.cols key2 pull)).mapCol key2 normCell)
            key2) key2
          else mergeLeft (d1.mapCol key1 normCell) key1
            ((d2.select (colsToPull d2.cols key2 pull)).mapCol key2 normCell)
            key2) := by
    have hcnt : ¬ 2 ≤ (colsToPull d2.cols key2 pull).count key2 := by
      rw [colsToPull_count_key2 d2.cols key2 pull h2 hkp]
      omega
    unfold perform_merge
    rw [if_neg g1, if_neg h3, if_neg (not_not_intro h1),
      if_neg (not_not_intro h2), if_neg hcnt]
  have hd2scols : ((d2.select (colsToPull d2.cols key2 pull)).mapCol key2
      normCell).cols = key2 :: pull := by
    rw [select_mapCol_cols d2 key2 pull h2, pull_filter_eq d2.cols pull hsub]
  refine ⟨_, hpm, ?_⟩
  rcases hcol with hk | ⟨hnd1, hsfx⟩
  · subst hk
    rw [if_neg (fun hc => hc.1 rfl)]
    have := mergeLeft_cols_same_key (d1.mapCol key1 normCell)
      ((d2.select (colsToPull d2.cols key1 pull)).mapCol key1 normCell)
      key1 pull hd2scols
    exact this
  · have hk : ¬ key1 = key2 := fun he => hnd1 (he ▸ h1)
    have hml := mergeLeft_cols_diff_key (d1.mapCol key1 normCell)
      ((d2.select (colsToPull d2.cols key2 pull)).mapCol key2 normCell)
      key1 key2 pull hk hd2scols
    have hren : renameRight (d1.mapCol key1 normCell).cols key2 = key2 := by
      show renameRight d1.cols key2 = key2
      unfold renameRight
      rw [if_neg hnd1]
    have hmem : key2 ∈ (mergeLeft (d1.mapCol key1 normCell) key1
        ((d2.select (colsToPull d2.cols key2 pull)).mapCol key2 normCell)
        key2).cols := by
      rw [hml]
      apply List.mem_append_right
      rw [hren]
      exact List.mem_cons_self _ _
    rw [if_pos ⟨hk, hmem⟩]
    show (mergeLeft _ key1 _ key2).cols.filter (fun x => decide (¬ x = key2)) = _
    rw [hml, List.filter_append]
    have hleft : (d1.mapCol key1 normCell).cols.filter
        (fun x => decide (¬ x = key2)) = d1.cols := by
      show d1.cols.filter _ = d1.cols
      apply List.filter_eq_self.mpr
      intro x hx
      simp only [decide_eq_true_eq]
      intro he
      exact hnd1 (he ▸ hx)
    have hright : (renameRight (d1.mapCol key1 normCell).cols key2
          :: pull.map (renameRight (d1.mapCol key1 normCell).cols)).filter
        (fun x => decide (¬ x = key2))
        = pull.map (renameRight d1.cols) := by
      rw [hren, List.filter_cons_of_neg (by simp)]
      show (pull.map (renameRight d1.cols)).filter _ = _
      apply List.filter_eq_self.mpr
      intro y hy
      obtain ⟨c, hc, rfl⟩ := List.mem_map.mp hy
      simp only [decide_eq_true_eq]
      unfold renameRight
      by_cases hcd : c ∈ d1.cols
      · rw [if_pos hcd]
        exact hsfx c hc
      · rw [if_neg hcd]
        intro he
        exact hkp (he ▸ hc)
    rw [hleft, hright]

/-- Witness for C8 (amended) with a pulled column "X" colliding with a
primary column, so it is renamed "X_src" in the result. -/
theorem merge_result_columns_witness :
    ¬ "B" ∈ (["A", "X"] : List String) ∧
    (∃ res, perform_merge ⟨["A", "X"], [[Cell.str "1", Cell.str "u"]]⟩
        ⟨["B", "X"], [[Cell.str "1", Cell.str "v"]]⟩ "A" "B" ["X"] = some res ∧
      res.cols = ["A", "X"] ++ ["X"].map (renameRight ["A", "X"])) :=
  ⟨by decide,
    merge_result_columns _ _ _ _ _ (by decide) (by decide) (by decide)
      (by decide) (by decide) (by decide) (by decide)
      (Or.inr ⟨by decide, by decide⟩)⟩

/-- Claim C3: loading the reference table yields a region map exactly when
the file exists, reads, and has at least 3 columns; in that case the map
is built from the first and third columns; when the file is absent,
unreadable, or too narrow, the region map stays unset and a message is
logged — `load_map_silent` is total, so no failure is raised. -/
theorem load_map_regions (fs : FileSys) :
    ((load_map_silent fs initMapState).mapDf.isSome = true
      ↔ ∃ df, fs = FileSys.readable df ∧ 3 ≤ df.cols.length) ∧
    (∀ df, fs = FileSys.readable df → 3 ≤ df.cols.length →
      (load_map_silent fs initMapState).mapDf = some (buildRegionMap df)) ∧
    ((load_map_silent fs initMapState).mapDf = none →
      ¬ (load_map_silent fs initMapState).logMsg = "") := by
  cases fs with
  | missing =>
    refine ⟨?_, ?_, ?_⟩
    · simp [load_map_silent, initMapState]
    · intro df h hlen
      simp at h
    · intro _
      decide
  | unreadable =>
    refine ⟨?_, ?_, ?_⟩
    · simp [load_map_silent, initMapState]
    · intro df h hlen
      simp at h
    · intro _
      decide
  | readable df =>
    by_cases h3 : 3 ≤ df.cols.length
    · refine ⟨?_, ?_, ?_⟩
      · constructor
        · intro _
          exact ⟨df, rfl, h3⟩
        · intro _
          simp [load_map_silent, h3]
      · intro df2 heq hlen
        cases heq
        simp [load_map_silent, h3]
      · intro hnone
        simp [load_map_silent, h3] at hnone
    · refine ⟨?_, ?_, ?_⟩
      · constructor
        · intro hs
          simp [load_map_silent, h3, initMapState] at hs
        · intro ⟨df2, heq, hlen⟩
          cases heq
          exact absurd hlen h3
      · intro df2 heq hlen
        cases heq
        exact absurd hlen h3
      · intro _
        simp [load_map_silent, h3, initMapState]

/-- Witness for C3: a readable 3-column reference file yields the region
map built from its first and third columns. -/
theorem load_map_regions_witness :
    (load_map_silent (FileSys.readable
        ⟨["a", "b", "c"], [[Cell.str "p", Cell.str "q", Cell.str "r"]]⟩)
        initMapState).mapDf
      = some (buildRegionMap
        ⟨["a", "b", "c"], [[Cell.str "p", Cell.str "q", Cell.str "r"]]⟩) :=
  (load_map_regions _).2.1 _ rfl (by decide)

/-- Counterexample for C4: for the original file "DATA.CSV" the code
writes "data/DATA_processed.csv" — the extension is lowercased — not the
claimed path built from the original file's extension as-is
("data/DATA_processed.CSV"). -/
theorem save_path_case_counterexample :
    (save_df ⟨some ⟨["X"], []⟩, some "DATA.CSV"⟩ "data" "processed").map
        SaveAction.path
      = some "data/DATA_processed.csv" ∧
    ¬ ((save_df ⟨some ⟨["X"], []⟩, some "DATA.CSV"⟩ "data" "processed").map
        SaveAction.path
      = some (specSavePath "DATA.CSV" "data" "processed")) := by
  constructor
  · decide
  · decide

/-- Claim C4 (amended): for every loaded table, non-empty original path and
suffix token, `save_df` produces an action whose directory is the output
folder (created on demand), whose path is the folder joined with the base
name, an underscore, the suffix and the lowercased original extension,
whose format is selected by that lowercased extension (csv/xlsx/json), and
whose serialized content is the full in-memory table, columns included. -/
theorem save_df_path_format (st : ProcState) (df : DataFrame)
    (fp outputFolder sfx : String)
    (h1 : st.filePath = some fp) (h2 : st.df = some df) (h3 : ¬ fp = "") :
    ∃ a, save_df st outputFolder sfx = some a ∧
      a.path = outputFolder ++ "/" ++ pathBase fp ++ "_" ++ sfx
        ++ pyLower (pathExt fp) ∧
      a.dirMade = outputFolder ∧
      a.content = df ∧
      (pyLower (pathExt fp) = ".csv" → a.format = SaveFormat.csv) ∧
      (pyLower (pathExt fp) = ".xlsx" → a.format = SaveFormat.xlsx) ∧
      (¬ pyLower (pathExt fp) = ".csv" → ¬ pyLower (pathExt fp) = ".xlsx" →
        a.format = SaveFormat.json) := by
  simp only [save_df, h1, h2]
  rw [if_neg h3]
  refine ⟨_, rfl, rfl, rfl, rfl, ?_, ?_, ?_⟩
  · intro hc
    rw [if_pos hc]
  · intro hx
    rw [if_neg (fun hc => by rw [hc] at hx; exact absurd hx (by decide)), if_pos hx]
  · intro hc hx
    rw [if_neg hc, if_neg hx]

/-- Witness for C4 (amended) at a concrete CSV path. -/
theorem save_df_path_format_witness :
    ∃ a, save_df ⟨some ⟨["A"], [[Cell.str "v"]]⟩, some "in/report.csv"⟩
        "data" "processed" = some a ∧
      a.path = "data" ++ "/" ++ pathBase "in/report.csv" ++ "_" ++ "processed"
        ++ pyLower (pathExt "in/report.csv") ∧
      a.dirMade = "data" ∧
      a.content = ⟨["A"], [[Cell.str "v"]]⟩ ∧
      (pyLower (pathExt "in/report.csv") = ".csv" → a.format = SaveFormat.csv) ∧
      (pyLower (pathExt "in/report.csv") = ".xlsx" → a.format = SaveFormat.xlsx) ∧
      (¬ pyLower (pathExt "in/report.csv") = ".csv" →
        ¬ pyLower (pathExt "in/report.csv") = ".xlsx" →
        a.format = SaveFormat.json) :=
  save_df_path_format _ _ _ _ _ rfl rfl (by decide)

/-- Counterexample for C5: when the first read (with the configured
"utf-8-sig") raises and chardet detects nothing or itself fails, the
merger loader's second attempt uses the hardcoded "utf-8" — the same
UTF-8 family as the first attempt, not an 8-bit legacy encoding (and not
the processor's fixed latin1). -/
theorem merger_fallback_not_legacy :
    (mergerLoadCsv (fun _ => ReadOutcome.err) "utf-8-sig" none).1
      = ["utf-8-sig", "utf-8"] ∧
    ¬ "utf-8" ∈ legacy8bitEncodings ∧
    ¬ "utf-8" = "latin1" := by
  refine ⟨rfl, by decide, by decide⟩

/-- Claim C5 (amended): in both CSV loaders the first attempt uses the
configured encoding and a second attempt happens iff the first raises;
the data processor's fallback is the fixed 8-bit legacy latin1, while the
CSV merger's fallback is the chardet-detected encoding (defaulting to
"utf-8"), which need not be 8-bit legacy; an error is surfaced iff both
attempts fail, and then the processor's state is unchanged and the merger
delivers no table. -/
theorem csv_load_fallback (rd : String → ReadOutcome) (cfgEnc : String)
    (cd : Option String) (st : ProcState) (path : String) :
    (processorLoadCsv rd cfgEnc st path).2.1
      = cfgEnc :: (if (rd cfgEnc).isOk then [] else ["latin1"]) ∧
    (mergerLoadCsv rd cfgEnc cd).1
      = cfgEnc :: (if (rd cfgEnc).isOk then [] else [detect_encoding cd]) ∧
    "latin1" ∈ legacy8bitEncodings ∧
    ((processorLoadCsv rd cfgEnc st path).2.2 = true
      ↔ (rd cfgEnc).isOk = false ∧ (rd "latin1").isOk = false) ∧
    ((mergerLoadCsv rd cfgEnc cd).2.2 = true
      ↔ (rd cfgEnc).isOk = false ∧ (rd (detect_encoding cd)).isOk = false) ∧
    ((processorLoadCsv rd cfgEnc st path).2.2 = true →
      (processorLoadCsv rd cfgEnc st path).1 = st) ∧
    ((mergerLoadCsv rd cfgEnc cd).2.2 = true →
      (mergerLoadCsv rd cfgEnc cd).2.1 = none) := by
  cases h1 : rd cfgEnc <;> cases h2 : rd "latin1" <;>
    cases h3 : rd (detect_encoding cd) <;>
      simp [processorLoadCsv, mergerLoadCsv, ReadOutcome.isOk, h1, h2, h3] <;>
        decide

/-- Witness for C5 (amended) with an oracle on which every read fails and
chardet detects nothing: both loaders attempt their fallback, surface the
error, and mutate nothing. -/
theorem csv_load_fallback_witness :
    (processorLoadCsv (fun _ => ReadOutcome.err) "utf-8-sig"
        ⟨none, none⟩ "f.csv").2.1 = ["utf-8-sig", "latin1"] ∧
    (processorLoadCsv (fun _ => ReadOutcome.err) "utf-8-sig"
        ⟨none, none⟩ "f.csv").1 = ⟨none, none⟩ ∧
    (mergerLoadCsv (fun _ => ReadOutcome.err) "utf-8-sig" none).2.1 = none ∧
    "latin1" ∈ legacy8bitEncodings :=
  ⟨(csv_load_fallback (fun _ => ReadOutcome.err) "utf-8-sig" none
      ⟨none, none⟩ "f.csv").1,
   (csv_load_fallback (fun _ => ReadOutcome.err) "utf-8-sig" none
      ⟨none, none⟩ "f.csv").2.2.2.2.2.1 rfl,
   (csv_load_fallback (fun _ => ReadOutcome.err) "utf-8-sig" none
      ⟨none, none⟩ "f.csv").2.2.2.2.2.2 rfl,
   (csv_load_fallback (fun _ => ReadOutcome.err) "utf-8-sig" none
      ⟨none, none⟩ "f.csv").2.2.1⟩

/-- Claim C6: for each operation separately, when the loaded table lacks
the one column that operation depends on (DIVISIONCODE for the BSG
removal, SUBSCRIBERSTATUSCODE for the ACT filter — the other column may or
may not be present), invoking it returns the state unchanged with a
warning and no save action; both functions are total, so the schema error
raises nothing. -/
theorem missing_column_nonfatal (rmatch : String → String → Bool)
    (st : ProcState) (df : DataFrame)
    (bsgCode actCode : String) (autoSave : Bool) (outputFolder : String)
    (h : st.df = some df) :
    (¬ "DIVISIONCODE" ∈ df.cols →
      remove_bsg st bsgCode autoSave outputFolder
        = (st, some "Data or DIVISIONCODE column not found.", none)) ∧
    (¬ "SUBSCRIBERSTATUSCODE" ∈ df.cols →
      filter_act rmatch st actCode autoSave outputFolder
        = (st, some "Data or SUBSCRIBERSTATUSCODE column not found.", none)) := by
  constructor
  · intro h1
    simp only [remove_bsg, h]
    rw [if_neg h1]
  · intro h2
    simp only [filter_act, h]
    rw [if_neg h2]

/-- Witness for C6, exercising each operation on a table that lacks only
that operation's column: the BSG removal on a table that has the status
column but no DIVISIONCODE, and the ACT filter on a table that has
DIVISIONCODE but no status column. -/
theorem missing_column_nonfatal_witness :
    remove_bsg ⟨some ⟨["SUBSCRIBERSTATUSCODE"], [[Cell.str "ACT"]]⟩,
        some "f.csv"⟩ "BSG" true "data"
      = (⟨some ⟨["SUBSCRIBERSTATUSCODE"], [[Cell.str "ACT"]]⟩, some "f.csv"⟩,
         some "Data or DIVISIONCODE column not found.", none) ∧
    filter_act (fun pat hay => strContainsSub hay pat)
        ⟨some ⟨["DIVISIONCODE"], [[Cell.str "BSG"]]⟩, some "f.csv"⟩
        "ACT" true "data"
      = (⟨some ⟨["DIVISIONCODE"], [[Cell.str "BSG"]]⟩, some "f.csv"⟩,
         some "Data or SUBSCRIBERSTATUSCODE column not found.", none) :=
  ⟨(missing_column_nonfatal (fun pat hay => strContainsSub hay pat)
      _ _ "BSG" "ACT" true "data" rfl).1 (by decide),
   (missing_column_nonfatal (fun pat hay => strContainsSub hay pat)
      _ _ "BSG" "ACT" true "data" rfl).2 (by decide)⟩

/-- Claim C9: with the status column present and the regex engine
searching for the configured code behaving as substring containment — as
Python `re` does whenever the code is free of regex metacharacters, in
particular for the configured default "ACT" — the ACT filter keeps exactly
the rows whose SUBSCRIBERSTATUSCODE, converted to a string, contains the
code as a substring: a containment test, not an equality test, so a status
merely containing the code as a fragment is retained; for the default code
"ACT", null cells (string-converted to "nan") never match and their rows
are dropped. -/
theorem filter_act_substring (rmatch : String → String → Bool)
    (st : ProcState) (df : DataFrame)
    (actCode : String) (autoSave : Bool) (outputFolder : String)
    (h : st.df = some df) (hc : "SUBSCRIBERSTATUSCODE" ∈ df.cols)
    (hplain : ∀ hay, rmatch actCode hay = strContainsSub hay actCode) :
    ∃ df2, (filter_act rmatch st actCode autoSave outputFolder).1.df
        = some df2 ∧
      df2.cols = df.cols ∧
      (∀ r, r ∈ df2.rows ↔ r ∈ df.rows ∧
        strContainsSub (pyStr (r.getD (df.cols.indexOf "SUBSCRIBERSTATUSCODE")
          Cell.null)) actCode = true) ∧
      (actCode = "ACT" → ∀ r ∈ df.rows,
        r.getD (df.cols.indexOf "SUBSCRIBERSTATUSCODE") Cell.null = Cell.null →
        ¬ r ∈ df2.rows) := by
  simp only [filter_act, h]
  rw [if_pos hc]
  refine ⟨_, rfl, rfl, ?_, ?_⟩
  · intro r
    rw [List.mem_filter, hplain]
  · intro hact r hr hnull hmem
    rw [List.mem_filter, hplain, hnull, hact] at hmem
    exact absurd hmem.2 (by decide)

/-- Witness for C9: the fragment "INACTIVE" is retained by the "ACT"
filter while a null status row is dropped. -/
theorem filter_act_substring_witness :
    ∃ df2, (filter_act (fun pat hay => strContainsSub hay pat)
        ⟨some ⟨["SUBSCRIBERSTATUSCODE"],
        [[Cell.str "ACTIVE"], [Cell.str "INACTIVE"], [Cell.null],
         [Cell.str "DIS"]]⟩, some "f.csv"⟩ "ACT" false "data").1.df
      = some df2 ∧
      df2.cols = (⟨["SUBSCRIBERSTATUSCODE"],
        [[Cell.str "ACTIVE"], [Cell.str "INACTIVE"], [Cell.null],
         [Cell.str "DIS"]]⟩ : DataFrame).cols ∧
      (∀ r, r ∈ df2.rows ↔ r ∈ (⟨["SUBSCRIBERSTATUSCODE"],
          [[Cell.str "ACTIVE"], [Cell.str "INACTIVE"], [Cell.null],
           [Cell.str "DIS"]]⟩ : DataFrame).rows ∧
        strContainsSub (pyStr (r.getD ((⟨["SUBSCRIBERSTATUSCODE"],
          [[Cell.str "ACTIVE"], [Cell.str "INACTIVE"], [Cell.null],
           [Cell.str "DIS"]]⟩ : DataFrame).cols.indexOf "SUBSCRIBERSTATUSCODE")
          Cell.null)) "ACT" = true) ∧
      ("ACT" = "ACT" → ∀ r ∈ (⟨["SUBSCRIBERSTATUSCODE"],
          [[Cell.str "ACTIVE"], [Cell.str "INACTIVE"], [Cell.null],
           [Cell.str "DIS"]]⟩ : DataFrame).rows,
        r.getD ((⟨["SUBSCRIBERSTATUSCODE"],
          [[Cell.str "ACTIVE"], [Cell.str "INACTIVE"], [Cell.null],
           [Cell.str "DIS"]]⟩ : DataFrame).cols.indexOf "SUBSCRIBERSTATUSCODE")
          Cell.null = Cell.null → ¬ r ∈ df2.rows) :=
  filter_act_substring (fun pat hay => strContainsSub hay pat) _ _ "ACT"
    false "data" rfl (by decide) (fun hay => rfl)

theorem convert_foldl (folder filePath : String) (skipEmpty : Bool)
    (sheets : List (String × List (List Cell))) (acc : List CsvOut) :
    sheets.foldl (fun acc sh =>
        if sh.2.isEmpty ∧ skipEmpty then acc
        else if ¬ sh.2.isEmpty = true then
          acc ++ [sheetOut folder filePath sh.1 sh.2]
        else acc) acc
      = acc ++ (sheets.filter (fun sh => !sh.2.isEmpty)).map
          (fun sh => sheetOut folder filePath sh.1 sh.2) := by
  induction sheets generalizing acc with
  | nil => simp
  | cons sh rest ih =>
    rw [List.foldl_cons]
    by_cases he : sh.2.isEmpty
    · have hstep : (if sh.2.isEmpty ∧ skipEmpty then acc
          else if ¬ sh.2.isEmpty = true then
            acc ++ [sheetOut folder filePath sh.1 sh.2]
          else acc) = acc := by
        by_cases hs : skipEmpty
        · rw [if_pos ⟨he, hs⟩]
        · rw [if_neg (fun hc => hs hc.2), if_neg (fun hc => hc he)]
      rw [hstep, ih, List.filter_cons_of_neg (by simp [he])]
    · rw [if_neg (fun hc => he hc.1), if_pos he, ih,
        List.filter_cons_of_pos (by simp [he]), List.map_cons,
        List.append_assoc]
      rfl

/-- Claim C10: with the split-sheets option disabled the converter exports
no file and reports the count 0 (there is no combined-export branch, yet
the run completes); with it enabled, it exports exactly one CSV per sheet
that has at least one row, regardless of the skip-empty option. -/
theorem excel_convert_split_only (filePath : String) (outFolder : Option String)
    (sheets : List (String × List (List Cell))) (skipEmpty : Bool) :
    convert filePath outFolder sheets false skipEmpty = ([], 0) ∧
    (convert filePath outFolder sheets true skipEmpty).1
      = (sheets.filter (fun sh => !sh.2.isEmpty)).map
          (fun sh => sheetOut (resolveOutFolder filePath outFolder)
            filePath sh.1 sh.2) ∧
    (convert filePath outFolder sheets true skipEmpty).2
      = (sheets.filter (fun sh => !sh.2.isEmpty)).length := by
  refine ⟨rfl, ?_, ?_⟩
  · show sheets.foldl _ [] = _
    rw [convert_foldl]
    exact List.nil_append _
  · show (sheets.foldl _ ([] : List CsvOut)).length = _
    rw [convert_foldl]
    rw [List.nil_append, List.length_map]
